import Mathlib

/-!
# Verification of the swarm-it-discovery pipeline

Shallow embedding of the discovery-and-ranking pipeline:

* `pipeline/analyzer/matcher.py`     — `SimilarityMatcher` (keyword mode, batch ops)
* `pipeline/analyzer/rsct_scorer.py` — `RSCTScorer`
* `pipeline/scanner/sources.py`      — source adapters and `fetch_all_sources`
* `pipeline/run.py`                  — `CertifiedPipeline.certify` / `run`

Python floats are modelled as exact rationals (`ℚ`); cosine similarity, which
needs square roots, is modelled over `ℝ`.  Python strings are Lean `String`s;
lowercasing, substring search and splitting are done over `List Char` with
structural recursion so that concrete runs reduce in the kernel.  Network
collaborators (source APIs, the embedding service, the Swarm-It certification
sidecar) enter as explicit oracle parameters: a list of per-adapter outcomes,
an embedding function, a client that either answers or raises.
-/

namespace Discovery

/-- Characters of a string lowercased; models Python `str.lower()`
(ASCII case mapping, which covers every keyword table in the source). -/
def lowerChars (s : String) : List Char :=
  s.data.map Char.toLower

/-- `containsSub needle hay` holds iff `needle` occurs contiguously in `hay`;
models Python's substring test `needle in hay`. -/
def containsSub (needle : List Char) : List Char → Bool
  | [] => needle.isEmpty
  | c :: rest => needle.isPrefixOf (c :: rest) || containsSub needle rest

/-- Fuel-driven split on a separator sequence; models Python `str.split(sep)`
for a non-empty separator (leftmost match, separators not kept).  The fuel is
the length of the scanned text plus one, so it never runs out. -/
def splitFuel (sep : List Char) : Nat → List Char → List (List Char)
  | 0, l => [l]
  | _ + 1, [] => [[]]
  | fuel + 1, c :: rest =>
    if sep.isPrefixOf (c :: rest) then
      [] :: splitFuel sep fuel ((c :: rest).drop sep.length)
    else
      match splitFuel sep fuel rest with
      | [] => [[c]]
      | h :: t => (c :: h) :: t

/-- Models Python `s.split(sep)` for a non-empty separator. -/
def splitStr (sep s : String) : List String :=
  (splitFuel sep.data (s.data.length + 1) s.data).map fun l => ⟨l⟩

/-- Models Python slicing `s[:n]` (character count). -/
def strTake (n : Nat) (s : String) : String :=
  ⟨s.data.take n⟩

/-- Generic stable insertion for a descending sort: the new element goes after
every already-placed element whose key is `≥` its own. -/
def insertDescBy {α : Type} (key : α → ℚ) (a : α) : List α → List α
  | [] => [a]
  | x :: xs =>
    if key x ≤ key a then a :: x :: xs else x :: insertDescBy key a xs

/-- Stable descending sort by a rational key; models Python's stable
`list.sort(key=..., reverse=True)`. -/
def sortDescBy {α : Type} (key : α → ℚ) : List α → List α
  | [] => []
  | a :: rest => insertDescBy key a (sortDescBy key rest)

/-! ## `analyzer/matcher.py` — SimilarityMatcher (keyword mode) -/

/-- Models `analyzer/matcher.py::MatchResult`. -/
structure MatchResult where
  paper_id : String
  paper_title : String
  similarity_score : ℚ
  matched_topics : List String
  top_keywords : List String
  explanation : String
deriving DecidableEq

/-- The fixed keyword/weight table of `SimilarityMatcher._keyword_match`
(matcher.py lines 137-148), in Python dict insertion order. -/
def keywordWeights : List (String × ℚ) :=
  [("representation", 0.15), ("solver", 0.15), ("compatibility", 0.15),
   ("kappa", 0.1), ("certification", 0.1), ("multi-agent", 0.1),
   ("hallucination", 0.08), ("grounding", 0.08),
   ("safety", 0.05), ("alignment", 0.05)]

/-- The accumulation loop of `_keyword_match`: walk the weight table in order,
summing the weight and recording the keyword for every entry that occurs in
the lowercased text. -/
def keywordScan (textLower : List Char) : List (String × ℚ) → ℚ × List String
  | [] => (0, [])
  | (kw, w) :: rest =>
    let r := keywordScan textLower rest
    if containsSub kw.data textLower then (w + r.1, kw :: r.2) else r

/-- Models `SimilarityMatcher._keyword_match`: the accumulated weight clamped
by `min(score, 1.0)`, with the matched keywords in table order. -/
def keywordMatch (text : String) : ℚ × List String :=
  let r := keywordScan (lowerChars text) keywordWeights
  (min r.1 1, r.2)

/-- Models `SimilarityMatcher.match_paper` in the keyword-fallback branch
(`embed_mode == "keyword"` or `topic_embeddings is None`; matcher.py
lines 164-174). -/
def matchPaper (paper_title paper_abstract : String) : MatchResult :=
  let combined := paper_title ++ "\n" ++ paper_abstract
  let r := keywordMatch combined
  { paper_id := ""
    paper_title := paper_title
    similarity_score := r.1
    matched_topics := []
    top_keywords := r.2
    explanation :=
      if r.2.isEmpty then "No keyword matches"
      else "Keyword match: " ++ String.intercalate ", " r.2 }

/-- The paper dictionaries `{"id": ..., "title": ..., "abstract": ...}` that
`match_papers` consumes (built by the orchestrator, run.py line 144). -/
structure PaperDict where
  id : String
  title : String
  abstract : String
deriving DecidableEq

/-- `result.paper_id = paper.get("id", "")` (matcher.py line 207). -/
def withId (pid : String) (r : MatchResult) : MatchResult :=
  { r with paper_id := pid }

/-- Models `SimilarityMatcher.match_papers` (keyword mode): score every paper,
attach its id, then sort the result list by `similarity_score` descending
(matcher.py lines 201-213). -/
def matchPapers (papers : List PaperDict) : List MatchResult :=
  sortDescBy (fun r => r.similarity_score)
    (papers.map fun p => withId p.id (matchPaper p.title p.abstract))

/-- Models `SimilarityMatcher.filter_relevant` (matcher.py lines 215-224):
zip the papers *in input order* against the *sorted* results and keep the
pairs whose result score reaches `min_score`. -/
def filterRelevant (papers : List PaperDict) (min_score : ℚ) :
    List (PaperDict × MatchResult) :=
  (papers.zip (matchPapers papers)).filter
    fun pr => min_score ≤ pr.2.similarity_score

/-! ## `scanner/sources.py` — Paper, BioRxiv adapter, fetch coordinator -/

/-- Models `scanner/sources.py::Paper`. -/
structure Paper where
  id : String
  title : String
  abstract : String
  authors : List String
  source : String
  url : String
  pdf_url : Option String
  published_date : String
  categories : List String
deriving DecidableEq

/-- The dedup key of `fetch_all_sources`: `p.title.lower()[:50]`
(sources.py line 434). -/
def titleKey (p : Paper) : List Char :=
  (lowerChars p.title).take 50

/-- The dedup loop of `fetch_all_sources` (sources.py lines 431-437); the
`seen` set of title keys is carried as a list. -/
def dedupeAux : List Paper → List (List Char) → List Paper
  | [], _ => []
  | p :: rest, seen =>
    if titleKey p ∈ seen then dedupeAux rest seen
    else p :: dedupeAux rest (titleKey p :: seen)

/-- Deduplication by lowercase 50-character title prefix, first occurrence
kept, order preserved. -/
def dedupeByTitle (papers : List Paper) : List Paper :=
  dedupeAux papers []

/-- One adapter's outcome as delivered by
`asyncio.gather(..., return_exceptions=True)`: either the fetched papers or
the raised exception (carried as its message). -/
def okPapers : Except String (List Paper) → List Paper
  | .ok papers => papers
  | .error _ => []

/-- Models `fetch_all_sources` (sources.py lines 405-439) given the adapters'
outcomes in registration order: an erroring source only logs and contributes
nothing, successful results are concatenated in order, and the merged list is
deduplicated by title key. -/
def fetchAllSources (outcomes : List (Except String (List Paper))) : List Paper :=
  dedupeByTitle ((outcomes.map okPapers).flatten)

/-- One record of the bioRxiv/medRxiv `collection` JSON array, restricted to
the fields `BioRxivSource.fetch_recent` reads (sources.py lines 267-287). -/
structure BioRxivItem where
  doi : String
  title : String
  abstract : String
  authors : String
  category : String
  date : String
deriving DecidableEq

/-- The relevance filter vocabulary of `BioRxivSource.fetch_recent`
(sources.py lines 272-273). -/
def relevantTerms : List String :=
  ["machine learning", "neural", "deep learning", "ai",
   "computational", "algorithm", "model", "prediction"]

/-- Models the parsing loop of `BioRxivSource.fetch_recent` (sources.py lines
267-289): a record is kept iff some relevance term occurs in its lowercased
category or title, and is then turned into a `Paper` — the abstract is copied
through with no emptiness check. -/
def biorxivParse (server : String) (collection : List BioRxivItem) : List Paper :=
  collection.filterMap fun item =>
    if relevantTerms.any (fun t =>
        containsSub t.data (lowerChars item.category) ||
        containsSub t.data (lowerChars item.title)) then
      some
        { id := server ++ ":" ++ ((splitStr "/" item.doi).getLastD "")
          title := item.title
          abstract := item.abstract
          authors := (splitStr "; " item.authors).take 10
          source := server
          url := "https://www." ++ server ++ ".org/content/" ++ item.doi
          pdf_url := some ("https://www." ++ server ++ ".org/content/" ++
            item.doi ++ ".full.pdf")
          published_date := item.date
          categories := [item.category] }
    else none

/-! ## `analyzer/rsct_scorer.py` — RSCTScorer -/

/-- Models `rsct_scorer.py::RSCTScore` with exact rational scores (produced
by the keyword-only configuration, which computes only rational values). -/
structure RSCTScore where
  paper_id : String
  paper_title : String
  rsct_similarity : ℚ
  topic_similarity : ℚ
  combined_score : ℚ
  key_overlaps : List String
deriving DecidableEq

/-- `RSCTScorer.RSCT_CONCEPTS` (rsct_scorer.py lines 36-41): 16 terms. -/
def RSCT_CONCEPTS : List String :=
  ["representation", "solver", "compatibility", "kappa",
   "noise", "spurious", "relevance", "decomposition",
   "simplex", "certification", "multi-agent", "swarm",
   "hallucination", "alignment", "safety", "constraint"]

/-- Models `RSCTScorer._keyword_score`: matched concepts over vocabulary
size, plus the matched concepts in vocabulary order. -/
def rsctKeywordScore (text : String) : ℚ × List String :=
  let found := RSCT_CONCEPTS.filter fun c => containsSub c.data (lowerChars text)
  ((found.length : ℚ) / (RSCT_CONCEPTS.length : ℚ), found)

/-- Models `RSCTScorer.score_paper` in the configuration where
`self.whitepaper_embedding` is falsy (no OpenAI credential or failed
whitepaper embedding), i.e. the `embed_score = keyword_score` branch at
rsct_scorer.py line 153, followed by the blends at lines 156-157. -/
def scorePaperNoEmbed (paper_id title abstract : String)
    (topic_similarity : ℚ) : RSCTScore :=
  let text := title ++ " " ++ abstract
  let ks := rsctKeywordScore text
  let embed_score := ks.1
  let rsct_similarity := 0.7 * embed_score + 0.3 * ks.1
  { paper_id := paper_id
    paper_title := title
    rsct_similarity := rsct_similarity
    topic_similarity := topic_similarity
    combined_score := 0.6 * rsct_similarity + 0.4 * topic_similarity
    key_overlaps := ks.2 }

/-- `sum(x * x for x in v)` — the squared Euclidean norm. -/
def sumSq (v : List ℚ) : ℚ :=
  (v.map fun x => x * x).sum

/-- `sum(x * y for x, y in zip(a, b))` — the dot product of
`RSCTScorer._cosine_similarity`. -/
def dotQ (a b : List ℚ) : ℚ :=
  (List.zipWith (fun x y => x * y) a b).sum

/-- Models `RSCTScorer._cosine_similarity` (rsct_scorer.py lines 113-121).
The source's guard `norm_a == 0 or norm_b == 0` is stated on the squared
norms, which is equivalent since `Real.sqrt s = 0 ↔ s = 0` for `s ≥ 0`. -/
noncomputable def rsctCosine (a b : List ℚ) : ℝ :=
  if sumSq a = 0 ∨ sumSq b = 0 then 0
  else (dotQ a b : ℝ) / (Real.sqrt (sumSq a) * Real.sqrt (sumSq b))

/-- Models `SimilarityMatcher._cosine_similarity` (matcher.py lines 128-130),
which divides by `norm(a) * norm(b)` with **no** zero-norm guard.  A zero norm
forces a zero dot product, so NumPy there evaluates `0.0 / 0.0 = nan`; the
`none` result models that NaN. -/
noncomputable def matcherCosine (a b : List ℚ) : Option ℝ :=
  if sumSq a = 0 ∨ sumSq b = 0 then none
  else some ((dotQ a b : ℝ) / (Real.sqrt (sumSq a) * Real.sqrt (sumSq b)))

/-- Models `rsct_scorer.py::RSCTScore` with real-valued scores, as produced
when an embedding cosine similarity (a real number) enters the blend. -/
structure RSCTScoreR where
  paper_id : String
  paper_title : String
  rsct_similarity : ℝ
  topic_similarity : ℝ
  combined_score : ℝ
  key_overlaps : List String

/-- Models `RSCTScorer.score_paper` (rsct_scorer.py lines 130-166) in full.
`whitepaperEmbedding` is `self.whitepaper_embedding` (`none` models Python
`None`); `embedFn` is the embedding-service oracle behind `self._embed`
(`none` models a failed call returning `None`).  Python truthiness of an
embedding (`if self.whitepaper_embedding:` / `if paper_embedding:`) is false
for both `None` and an empty list. -/
noncomputable def scorePaper (whitepaperEmbedding : Option (List ℚ))
    (embedFn : String → Option (List ℚ)) (paper_id title abstract : String)
    (topic_similarity : ℚ) : RSCTScoreR :=
  let text := title ++ " " ++ abstract
  let ks := rsctKeywordScore text
  let embed_score : ℝ :=
    match whitepaperEmbedding with
    | some we =>
      if we.isEmpty then (ks.1 : ℝ)
      else
        match embedFn text with
        | some pe => if pe.isEmpty then (ks.1 : ℝ) else rsctCosine pe we
        | none => (ks.1 : ℝ)
    | none => (ks.1 : ℝ)
  let rsct_similarity := 0.7 * embed_score + 0.3 * (ks.1 : ℝ)
  { paper_id := paper_id
    paper_title := title
    rsct_similarity := rsct_similarity
    topic_similarity := (topic_similarity : ℝ)
    combined_score := 0.6 * rsct_similarity + 0.4 * (topic_similarity : ℝ)
    key_overlaps := ks.2 }

/-- The dictionaries handed to `rank_papers` by the orchestrator
(run.py lines 166-174). -/
structure RsctDict where
  id : String
  title : String
  abstract : String
  similarity_score : ℚ
deriving DecidableEq

/-- Models `RSCTScorer.rank_papers` (rsct_scorer.py lines 168-187) in the
keyword-only configuration: score every paper, keep those whose
`rsct_similarity` reaches `min_rsct_score`, sort by `combined_score`
descending (stable). -/
def rankPapers (papers : List RsctDict) (min_rsct_score : ℚ) : List RSCTScore :=
  sortDescBy (fun s => s.combined_score)
    (((papers.map fun p =>
        scorePaperNoEmbed p.id p.title p.abstract p.similarity_score).filter
      fun s => min_rsct_score ≤ s.rsct_similarity))

/-! ## `run.py` — CertifiedPipeline -/

/-- The certification response object returned by the Swarm-It client
(the `cert` of run.py lines 88-97). -/
structure SwarmCert where
  allowed : Bool
  kappa_gate : ℚ
  decision : String
  R : ℚ
  S : ℚ
  N : ℚ
deriving DecidableEq

/-- The dict built by `CertifiedPipeline.certify`; `R`/`S`/`N` are `none` for
the two fallback dicts, which carry no such keys. -/
structure CertDict where
  allowed : Bool
  kappa_gate : ℚ
  decision : String
  R : Option ℚ
  S : Option ℚ
  N : Option ℚ
  stage : String
deriving DecidableEq

/-- The certification collaborator: `none` models `self.swarmit is None`
(client library missing, or sidecar unhealthy at construction); `some f`
models a client whose `certify` call either returns a cert or raises. -/
def SwarmClient : Type :=
  Option (String → Except String SwarmCert)

/-- Models `CertifiedPipeline.certify` (run.py lines 82-100). -/
def certify (swarmit : SwarmClient) (content stage : String) : CertDict :=
  match swarmit with
  | none =>
    { allowed := true, kappa_gate := 1, decision := "EXECUTE",
      R := none, S := none, N := none, stage := stage }
  | some client =>
    match client content with
    | .ok cert =>
      { allowed := cert.allowed, kappa_gate := cert.kappa_gate,
        decision := cert.decision, R := some cert.R, S := some cert.S,
        N := some cert.N, stage := stage }
    | .error _ =>
      { allowed := true, kappa_gate := 0, decision := "ERROR",
        R := none, S := none, N := none, stage := stage }

/-- The entries appended to `results["top_papers"]` (run.py lines 197-203). -/
structure TopPaper where
  title : String
  topic_score : ℚ
  rsct_score : ℚ
  combined_score : ℚ
  key_overlaps : List String
deriving DecidableEq

/-- The `results` dict of `CertifiedPipeline.run` (run.py lines 104-114);
the wall-clock `timestamp` field is outside the model. -/
structure RunResults where
  papers_fetched : Nat
  papers_matched : Nat
  papers_rsct_ranked : Nat
  posts_generated : Nat
  pdfs_generated : Nat
  certifications : List CertDict
  top_papers : List TopPaper
  errors : List String
deriving DecidableEq

/-- `scanner_content` (run.py line 133).  The textual summary handed to the
scanner gate; title truncation and joining as in the source. -/
def scannerContent (papers : List Paper) : String :=
  "Fetched " ++ toString papers.length ++ " papers: " ++
    String.intercalate ", " ((papers.take 5).map fun p => strTake 50 p.title)

/-- `analyzer_content` (run.py lines 157-159).  The `:.0%` float formatting
of the score is rendered as the exact rational's `toString`; the gates treat
the summary as an opaque text blob either way. -/
def analyzerContent (relevant : List (Paper × MatchResult)) : String :=
  "Matched " ++ toString relevant.length ++ " papers: " ++
    String.intercalate "; " ((relevant.take 5).map fun pm =>
      strTake 30 pm.2.paper_title ++ " (" ++ toString pm.2.similarity_score ++ ")")

/-- The conversion at run.py line 144. -/
def toPaperDict (p : Paper) : PaperDict :=
  { id := p.id, title := p.title, abstract := p.abstract }

/-- `rsct_lookup = {s.paper_id: s for s in rsct_scores}` then `.get(pid)`
(run.py lines 180, 185): a Python dict comprehension keeps the *last* entry
per key, hence the search over the reversed list. -/
def rsctLookup (scores : List RSCTScore) (pid : String) : Option RSCTScore :=
  scores.reverse.find? fun s => s.paper_id == pid

/-- Models `CertifiedPipeline.run` (run.py lines 102-216) in the
keyword-matching, no-whitepaper-embedding configuration (no embedding
credentials), with `dry_run = True`: stages 3 and 4 call the external
renderer collaborators and are not entered in a dry run.  The outcome list
plays the role of the awaited `fetch_all_sources` adapter tasks, and
`swarmit` is the certification collaborator. -/
def runModel (swarmit : SwarmClient)
    (outcomes : List (Except String (List Paper)))
    (min_score min_rsct_score : ℚ) : RunResults :=
  let papers := fetchAllSources outcomes
  let base : RunResults :=
    { papers_fetched := papers.length, papers_matched := 0,
      papers_rsct_ranked := 0, posts_generated := 0, pdfs_generated := 0,
      certifications := [], top_papers := [], errors := [] }
  if papers.isEmpty then base
  else
    let cert1 := certify swarmit (scannerContent papers) "scanner"
    let base1 := { base with certifications := [cert1] }
    if !cert1.allowed then
      { base1 with errors := ["Scanner output blocked by certification"] }
    else
      let matchList := matchPapers (papers.map toPaperDict)
      let relevant := (papers.zip matchList).filter fun pm =>
        min_score ≤ pm.2.similarity_score
      let base2 := { base1 with papers_matched := relevant.length }
      if relevant.isEmpty then base2
      else
        let cert2 := certify swarmit (analyzerContent relevant) "analyzer"
        let base3 := { base2 with certifications := [cert1, cert2] }
        let rsct_paper_dicts : List RsctDict := relevant.map fun pm =>
          { id := pm.1.id, title := pm.1.title, abstract := pm.1.abstract,
            similarity_score := pm.2.similarity_score }
        let rsct_scores := rankPapers rsct_paper_dicts min_rsct_score
        let relevant_with_rsct := relevant.filterMap fun pm =>
          (rsctLookup rsct_scores pm.1.id).map fun r => (pm.1, pm.2, r)
        let sorted := sortDescBy (fun t => t.2.2.combined_score) relevant_with_rsct
        let base4 := { base3 with
          papers_rsct_ranked := rsct_scores.length
          top_papers := (sorted.take 5).map fun t =>
            { title := t.1.title, topic_score := t.2.1.similarity_score,
              rsct_score := t.2.2.rsct_similarity,
              combined_score := t.2.2.combined_score,
              key_overlaps := t.2.2.key_overlaps } }
        if !cert2.allowed then
          { base4 with errors := ["Analyzer output blocked by certification"] }
        else
          base4

/-! ## Concrete fixtures for run-level evaluations -/

/-- A fetched paper whose text matches three keywords (score `0.45`). -/
def samplePaper : Paper :=
  { id := "arxiv:2601.00001", title := "beta",
    abstract := "representation solver compatibility", authors := ["A"],
    source := "arxiv", url := "https://arxiv.org/abs/2601.00001",
    pdf_url := none, published_date := "2026-01-01", categories := ["cs.AI"] }

/-- The `MatchResult` the keyword matcher computes for `samplePaper`. -/
def sampleMatch : MatchResult :=
  { paper_id := "arxiv:2601.00001", paper_title := "beta",
    similarity_score := 0.45, matched_topics := [],
    top_keywords := ["representation", "solver", "compatibility"],
    explanation := "Keyword match: representation, solver, compatibility" }

/-- The `RSCTScore` the keyword-only scorer computes for `samplePaper`
(`keyword_score = 3/16`, `combined = 0.6*(3/16) + 0.4*0.45 = 117/400`). -/
def sampleScore : RSCTScore :=
  { paper_id := "arxiv:2601.00001", paper_title := "beta",
    rsct_similarity := 3 / 16, topic_similarity := 0.45,
    combined_score := 117 / 400,
    key_overlaps := ["representation", "solver", "compatibility"] }

/-- A certification client that allows the scanner summary (which starts
with "Fetched") and blocks every other stage summary. -/
def blockAnalyzerClient : String → Except String SwarmCert := fun content =>
  if "Fetched".data.isPrefixOf content.data then
    Except.ok { allowed := true, kappa_gate := 1, decision := "EXECUTE",
                R := 1, S := 0, N := 0 }
  else
    Except.ok { allowed := false, kappa_gate := 0, decision := "BLOCK",
                R := 0, S := 0, N := 1 }

/-- A certification client that blocks every summary. -/
def blockAllClient : String → Except String SwarmCert := fun _ =>
  Except.ok { allowed := false, kappa_gate := 0, decision := "BLOCK",
              R := 0, S := 0, N := 1 }

/-- The certify dict produced by `blockAnalyzerClient` at the scanner gate. -/
def certExec : CertDict :=
  { allowed := true, kappa_gate := 1, decision := "EXECUTE",
    R := some 1, S := some 0, N := some 0, stage := "scanner" }

/-- The certify dict produced by `blockAnalyzerClient` at the analyzer gate. -/
def certBlock : CertDict :=
  { allowed := false, kappa_gate := 0, decision := "BLOCK",
    R := some 0, S := some 0, N := some 1, stage := "analyzer" }

/-! ## Helper lemmas: deduplication -/

theorem dedupeAux_sublist (l : List Paper) :
    ∀ seen, List.Sublist (dedupeAux l seen) l := by
  induction l with
  | nil => intro seen; simp [dedupeAux]
  | cons p rest ih =>
    intro seen
    simp only [dedupeAux]
    by_cases h : titleKey p ∈ seen
    · simpa [h] using (ih seen).cons p
    · simpa [h] using (ih (titleKey p :: seen)).cons₂ p

theorem dedupeAux_key_not_mem (l : List Paper) :
    ∀ seen p, p ∈ dedupeAux l seen → titleKey p ∉ seen := by
  induction l with
  | nil => intro seen p hp; simp [dedupeAux] at hp
  | cons q rest ih =>
    intro seen p hp
    simp only [dedupeAux] at hp
    by_cases h : titleKey q ∈ seen
    · rw [if_pos h] at hp
      exact ih seen p hp
    · rw [if_neg h] at hp
      rcases List.mem_cons.mp hp with rfl | hp
      · exact h
      · intro hmem
        exact ih _ p hp (List.mem_cons_of_mem _ hmem)

theorem dedupeAux_pairwise (l : List Paper) :
    ∀ seen, (dedupeAux l seen).Pairwise fun p q => titleKey p ≠ titleKey q := by
  induction l with
  | nil => intro seen; simp [dedupeAux]
  | cons q rest ih =>
    intro seen
    simp only [dedupeAux]
    by_cases h : titleKey q ∈ seen
    · simpa [h] using ih seen
    · rw [if_neg h]
      refine List.Pairwise.cons (fun p hp hkey => ?_) (ih _)
      exact dedupeAux_key_not_mem rest _ p hp (hkey ▸ List.mem_cons_self _ _)

theorem dedupeAux_find_first (l : List Paper) :
    ∀ seen p, p ∈ dedupeAux l seen →
      l.find? (fun q => decide (titleKey q = titleKey p)) = some p := by
  induction l with
  | nil => intro seen p hp; simp [dedupeAux] at hp
  | cons q rest ih =>
    intro seen p hp
    simp only [dedupeAux] at hp
    by_cases h : titleKey q ∈ seen
    · rw [if_pos h] at hp
      have hne : titleKey q ≠ titleKey p := by
        intro he
        exact dedupeAux_key_not_mem rest seen p hp (he ▸ h)
      rw [List.find?_cons_of_neg _ (by simpa using hne)]
      exact ih seen p hp
    · rw [if_neg h] at hp
      rcases List.mem_cons.mp hp with rfl | hp
      · rw [List.find?_cons_of_pos _ (by simp)]
      · have hnotin := dedupeAux_key_not_mem rest _ p hp
        have hne : titleKey q ≠ titleKey p := by
          intro he
          exact hnotin (he ▸ List.mem_cons_self _ _)
        rw [List.find?_cons_of_neg _ (by simpa using hne)]
        exact ih _ p hp

/-! ## Helper lemmas: concrete run evaluation -/

theorem sample_fetch : fetchAllSources [Except.ok [samplePaper]] = [samplePaper] := by
  decide

theorem sample_matchPapers : matchPapers [toPaperDict samplePaper] = [sampleMatch] := by
  have hB : matchPaper "beta" "representation solver compatibility" =
      { paper_id := "", paper_title := "beta", similarity_score := 0.45,
        matched_topics := [],
        top_keywords := ["representation", "solver", "compatibility"],
        explanation := "Keyword match: representation, solver, compatibility" } := by
    simp +decide only [matchPaper, keywordMatch, keywordScan, keywordWeights]
    norm_num
    decide
  simp only [matchPapers, toPaperDict, samplePaper, List.map_cons, List.map_nil,
    hB, withId, sortDescBy, insertDescBy, sampleMatch]

theorem sample_relevant :
    List.filter (fun pm => decide ((2 / 5 : ℚ) ≤ pm.2.similarity_score))
      [(samplePaper, sampleMatch)] = [(samplePaper, sampleMatch)] := by
  simp only [List.filter_cons, List.filter_nil, sampleMatch, decide_eq_true_eq]
  norm_num

theorem sample_cert1 :
    certify (some blockAnalyzerClient) (scannerContent [samplePaper]) "scanner" =
      certExec := by
  decide

theorem sample_cert2 :
    certify (some blockAnalyzerClient)
      (analyzerContent [(samplePaper, sampleMatch)]) "analyzer" = certBlock := by
  decide

theorem sample_rank :
    rankPapers
      [{ id := "arxiv:2601.00001", title := "beta",
         abstract := "representation solver compatibility",
         similarity_score := 0.45 }] (1 / 8) = [sampleScore] := by
  have htxt : ("beta" ++ " " ++ "representation solver compatibility" : String) =
      "beta representation solver compatibility" := rfl
  have hfB : RSCT_CONCEPTS.filter
      (fun c => containsSub c.data
        (lowerChars "beta representation solver compatibility")) =
      ["representation", "solver", "compatibility"] := by decide
  have hks : rsctKeywordScore ("beta" ++ " " ++ "representation solver compatibility") =
      (3 / 16, ["representation", "solver", "compatibility"]) := by
    rw [htxt]
    simp only [rsctKeywordScore, hfB]
    norm_num [RSCT_CONCEPTS]
  have hsp : scorePaperNoEmbed "arxiv:2601.00001" "beta"
      "representation solver compatibility" 0.45 = sampleScore := by
    simp only [scorePaperNoEmbed, hks, sampleScore]
    norm_num
  simp only [rankPapers, List.map_cons, List.map_nil, hsp, List.filter_cons,
    List.filter_nil, decide_eq_true_eq, sampleScore]
  norm_num [sortDescBy, insertDescBy]

theorem sample_lookup : rsctLookup [sampleScore] "arxiv:2601.00001" = some sampleScore := by
  rw [rsctLookup]
  rw [show ([sampleScore].reverse) = [sampleScore] from rfl]
  rw [List.find?_cons_of_pos]
  rfl

/-! ## Claim theorems -/

/-- **C2** (confirmed).  For every mix of adapter outcomes, the Fetch
Coordinator's output is a sublist of the merged list (adapter-registration
order, provider order within an adapter), contains no two papers with equal
lowercase 50-character title prefixes, keeps for each such key exactly the
first merged paper bearing it, and is no longer than the merged input. -/
theorem C2_fetch_dedup (outcomes : List (Except String (List Paper))) :
    List.Sublist (fetchAllSources outcomes) ((outcomes.map okPapers).flatten) ∧
    (fetchAllSources outcomes).Pairwise (fun p q => titleKey p ≠ titleKey q) ∧
    (∀ p ∈ fetchAllSources outcomes,
      ((outcomes.map okPapers).flatten).find?
        (fun q => decide (titleKey q = titleKey p)) = some p) ∧
    (fetchAllSources outcomes).length ≤ ((outcomes.map okPapers).flatten).length := by
  refine ⟨dedupeAux_sublist _ _, dedupeAux_pairwise _ _,
    fun p hp => dedupeAux_find_first _ _ p hp, (dedupeAux_sublist _ _).length_le⟩

/-- Witness for C2 at a concrete input: two sources, the second erroring, the
third repeating the first's title in different case; the coordinator keeps
only the first paper, and that paper is the first merged one with its key. -/
theorem C2_fetch_dedup_witness :
    fetchAllSources
      [Except.ok [{ id := "arxiv:1", title := "Solver Compatibility in Swarms",
                    abstract := "a", authors := [], source := "arxiv",
                    url := "u1", pdf_url := none, published_date := "d",
                    categories := [] }],
       Except.error "rate limited",
       Except.ok [{ id := "s2:9", title := "SOLVER COMPATIBILITY IN SWARMS",
                    abstract := "b", authors := [], source := "semantic_scholar",
                    url := "u2", pdf_url := none, published_date := "d",
                    categories := [] }]] =
      [{ id := "arxiv:1", title := "Solver Compatibility in Swarms",
         abstract := "a", authors := [], source := "arxiv",
         url := "u1", pdf_url := none, published_date := "d",
         categories := [] }] ∧
    ∀ p ∈ fetchAllSources
      [Except.ok [{ id := "arxiv:1", title := "Solver Compatibility in Swarms",
                    abstract := "a", authors := [], source := "arxiv",
                    url := "u1", pdf_url := none, published_date := "d",
                    categories := [] }],
       Except.error "rate limited",
       Except.ok [{ id := "s2:9", title := "SOLVER COMPATIBILITY IN SWARMS",
                    abstract := "b", authors := [], source := "semantic_scholar",
                    url := "u2", pdf_url := none, published_date := "d",
                    categories := [] }]],
      ([Except.ok [{ id := "arxiv:1", title := "Solver Compatibility in Swarms",
                     abstract := "a", authors := [], source := "arxiv",
                     url := "u1", pdf_url := none, published_date := "d",
                     categories := [] }],
        Except.error "rate limited",
        Except.ok [{ id := "s2:9", title := "SOLVER COMPATIBILITY IN SWARMS",
                     abstract := "b", authors := [], source := "semantic_scholar",
                     url := "u2", pdf_url := none, published_date := "d",
                     categories := [] }]].map okPapers).flatten.find?
        (fun q => decide (titleKey q = titleKey p)) = some p :=
  ⟨by decide, fun p hp => (C2_fetch_dedup _).2.2.1 p hp⟩

/-- **C5** (confirmed).  An erroring adapter contributes zero papers and
leaves every other adapter's contribution and order untouched, and when all
adapters succeed the coordinator returns exactly the deduplicated
registration-order concatenation of their results. -/
theorem C5_error_isolation :
    (∀ (pre post : List (Except String (List Paper))) (e : String),
      fetchAllSources (pre ++ Except.error e :: post) =
        fetchAllSources (pre ++ post)) ∧
    (∀ lists : List (List Paper),
      fetchAllSources (lists.map Except.ok) = dedupeByTitle lists.flatten) := by
  constructor
  · intro pre post e
    simp [fetchAllSources, okPapers]
  · intro lists
    simp only [fetchAllSources, List.map_map]
    have : okPapers ∘ Except.ok = id := funext fun l => rfl
    rw [this, List.map_id]

/-- **C9** (confirmed).  In keyword mode, the text
"representation solver compatibility" scores exactly `0.15+0.15+0.15 = 0.45`
with matched keywords `["representation","solver","compatibility"]`, a paper
with that combined title+abstract text gets that `similarity_score` and
`top_keywords`, and keyword mode never populates `matched_topics`. -/
theorem C9_keyword_determinism :
    keywordMatch "representation solver compatibility" =
      (0.45, ["representation", "solver", "compatibility"]) ∧
    (matchPaper "representation solver" "compatibility").similarity_score = 0.45 ∧
    (matchPaper "representation solver" "compatibility").top_keywords =
      ["representation", "solver", "compatibility"] ∧
    ∀ title abstract, (matchPaper title abstract).matched_topics = [] := by
  refine ⟨?_, ?_, ?_, fun t a => rfl⟩
  · simp +decide only [keywordMatch, keywordScan, keywordWeights]
    norm_num
  · simp +decide only [matchPaper, keywordMatch, keywordScan, keywordWeights]
    norm_num
  · simp +decide only [matchPaper, keywordMatch, keywordScan, keywordWeights]

/-- Counterexample to **C10** as stated: the ten keyword weights sum to
`1.01`, not `1.0`, and the raw (pre-clamp) sum attained by a text containing
all ten keywords is `1.01`. -/
theorem C10_weights_sum_not_one :
    (keywordWeights.map Prod.snd).sum = 101 / 100 ∧
    ((101 : ℚ) / 100) ≠ 1 ∧
    (keywordScan
      (lowerChars "representation solver compatibility kappa certification multi-agent hallucination grounding safety alignment")
      keywordWeights).1 = 101 / 100 := by
  refine ⟨?_, by norm_num, ?_⟩
  · simp only [keywordWeights, List.map, List.sum_cons, List.sum_nil]
    norm_num
  · simp +decide only [keywordScan, keywordWeights]
    norm_num

/-- **C10** amended (corrected).  The keyword table has exactly 10 entries and
its weights sum to `1.01`; the returned score is clamped by `min(score, 1.0)`,
so the maximum attainable *returned* score — reached by a text containing all
ten keywords — is exactly `1.0`. -/
theorem C10_weight_table :
    keywordWeights.length = 10 ∧
    (keywordWeights.map Prod.snd).sum = 101 / 100 ∧
    keywordMatch "representation solver compatibility kappa certification multi-agent hallucination grounding safety alignment" =
      (1, ["representation", "solver", "compatibility", "kappa", "certification",
           "multi-agent", "hallucination", "grounding", "safety", "alignment"]) := by
  refine ⟨by decide, ?_, ?_⟩
  · simp only [keywordWeights, List.map, List.sum_cons, List.sum_nil]
    norm_num
  · simp +decide only [keywordMatch, keywordScan, keywordWeights]
    norm_num

/-- **C1** (code_bug), evaluated at the failing input.  `filter_relevant`
zips the papers in input order against the score-sorted results: with a
low-scoring first paper and a high-scoring second one and `min_score = 0.4`,
the returned list pairs the *first* paper (own score `0`) with the
`MatchResult` computed from the *second* paper's text, and the second paper
(own score `0.45 ≥ 0.4`) is dropped — contradicting both the claim and the
method's own docstring. -/
theorem C1_filter_relevant_at_failing_input :
    filterRelevant
      [{ id := "a", title := "alpha", abstract := "nothing here" },
       { id := "b", title := "beta", abstract := "representation solver compatibility" }]
      0.4 =
      [({ id := "a", title := "alpha", abstract := "nothing here" },
        { paper_id := "b", paper_title := "beta", similarity_score := 0.45,
          matched_topics := [],
          top_keywords := ["representation", "solver", "compatibility"],
          explanation := "Keyword match: representation, solver, compatibility" })] ∧
    (matchPaper "alpha" "nothing here").similarity_score = 0 ∧
    (matchPaper "beta" "representation solver compatibility").similarity_score =
      0.45 := by
  have hA : matchPaper "alpha" "nothing here" =
      { paper_id := "", paper_title := "alpha", similarity_score := 0,
        matched_topics := [], top_keywords := [],
        explanation := "No keyword matches" } := by
    simp +decide only [matchPaper, keywordMatch, keywordScan, keywordWeights]
  have hB : matchPaper "beta" "representation solver compatibility" =
      { paper_id := "", paper_title := "beta", similarity_score := 0.45,
        matched_topics := [],
        top_keywords := ["representation", "solver", "compatibility"],
        explanation := "Keyword match: representation, solver, compatibility" } := by
    simp +decide only [matchPaper, keywordMatch, keywordScan, keywordWeights]
    norm_num
    decide
  refine ⟨?_, by rw [hA], by rw [hB]⟩
  simp only [filterRelevant, matchPapers, List.map, hA, hB, withId]
  norm_num [sortDescBy, insertDescBy, List.zip, List.zipWith, List.filter]

/-- **C6** (code_bug), evaluated at the failing input.  A bioRxiv record
that passes the relevance filter ("machine learning" in its title) but has an
empty abstract is *not* dropped: `BioRxivSource.fetch_recent` emits a `Paper`
with `abstract = ""`. -/
theorem C6_biorxiv_keeps_empty_abstract :
    (biorxivParse "biorxiv"
      [{ doi := "10.1101/2026.01.01.000001",
         title := "Machine learning study of gene expression",
         abstract := "", authors := "Doe, J; Roe, R",
         category := "neuroscience", date := "2026-01-01" }]).map Paper.abstract
      = [""] ∧
    (biorxivParse "biorxiv"
      [{ doi := "10.1101/2026.01.01.000001",
         title := "Machine learning study of gene expression",
         abstract := "", authors := "Doe, J; Roe, R",
         category := "neuroscience", date := "2026-01-01" }]).length = 1 := by
  constructor
  · decide
  · decide

/-- **C8** (code_bug), evaluated at the failing input.  On a zero-norm
vector the Scorer's cosine is guarded and returns `0.0`, but the Matcher's
cosine has no guard: it evaluates `0.0/0.0`, i.e. NaN (modelled `none`). -/
theorem C8_cosine_zero_norm :
    matcherCosine [0] [1] = none ∧
    matcherCosine [1] [0] = none ∧
    rsctCosine [0] [1] = 0 ∧
    rsctCosine [1] [0] = 0 := by
  refine ⟨?_, ?_, ?_, ?_⟩ <;> norm_num [matcherCosine, rsctCosine, sumSq]

/-- Counterexample to **C3** as stated: when the collaborator's call raises,
`certify` does *not* return the claimed passing default — the decision is
`"ERROR"` with `kappa_gate = 0.0`, not `"EXECUTE"` with `1.0` (only
`allowed = true` holds). -/
theorem C3_certify_error_not_passing_default :
    certify (some fun _ => Except.error "connection refused") "content" "scanner" =
      { allowed := true, kappa_gate := 0, decision := "ERROR",
        R := none, S := none, N := none, stage := "scanner" } ∧
    (certify (some fun _ => Except.error "connection refused")
        "content" "scanner").decision ≠ "EXECUTE" ∧
    (certify (some fun _ => Except.error "connection refused")
        "content" "scanner").kappa_gate ≠ 1 := by
  refine ⟨rfl, by decide, by norm_num [certify]⟩

theorem runModel_errors_of_allowed (swarm : SwarmClient)
    (hall : ∀ content stage, (certify swarm content stage).allowed = true)
    (outcomes : List (Except String (List Paper))) (ms mr : ℚ) :
    (runModel swarm outcomes ms mr).errors = [] := by
  simp only [runModel, hall, Bool.not_true, Bool.false_eq_true, if_false]
  split
  · rfl
  · split
    · rfl
    · rfl

/-- **C3** amended (corrected).  When the certification collaborator is
absent, `certify` returns the passing default
`allowed=true, kappa_gate=1.0, decision="EXECUTE"`; when the collaborator's
call raises, it returns `allowed=true, kappa_gate=0.0, decision="ERROR"`.
In both cases `allowed = true`, so a run against such a collaborator records
no gate errors and is never halted by a gate. -/
theorem C3_certify_fail_open :
    (∀ content stage, certify none content stage =
      { allowed := true, kappa_gate := 1, decision := "EXECUTE",
        R := none, S := none, N := none, stage := stage }) ∧
    (∀ (f : String → Except String SwarmCert),
      (∀ c, ∃ e, f c = Except.error e) →
      ∀ content stage, certify (some f) content stage =
        { allowed := true, kappa_gate := 0, decision := "ERROR",
          R := none, S := none, N := none, stage := stage }) ∧
    (∀ (outcomes : List (Except String (List Paper))) (ms mr : ℚ),
      (runModel none outcomes ms mr).errors = []) ∧
    (∀ (f : String → Except String SwarmCert)
      (outcomes : List (Except String (List Paper))) (ms mr : ℚ),
      (∀ c, ∃ e, f c = Except.error e) →
      (runModel (some f) outcomes ms mr).errors = []) := by
  have herr : ∀ (f : String → Except String SwarmCert),
      (∀ c, ∃ e, f c = Except.error e) → ∀ content stage,
      certify (some f) content stage =
        { allowed := true, kappa_gate := 0, decision := "ERROR",
          R := none, S := none, N := none, stage := stage } := by
    intro f h content stage
    obtain ⟨e, he⟩ := h content
    simp [certify, he]
  refine ⟨fun content stage => rfl, herr, ?_, ?_⟩
  · intro outcomes ms mr
    exact runModel_errors_of_allowed none (fun c s => rfl) outcomes ms mr
  · intro f outcomes ms mr h
    exact runModel_errors_of_allowed (some f)
      (fun c s => by rw [herr f h c s]) outcomes ms mr

/-- Witness for C3 at a concrete erroring collaborator. -/
theorem C3_certify_fail_open_witness :
    certify (some fun _ => Except.error "sidecar down") "x" "analyzer" =
      { allowed := true, kappa_gate := 0, decision := "ERROR",
        R := none, S := none, N := none, stage := "analyzer" } ∧
    (runModel (some fun _ => Except.error "sidecar down")
      [Except.ok []] (1/2) (3/10)).errors = [] :=
  ⟨C3_certify_fail_open.2.1 _ (fun _ => ⟨"sidecar down", rfl⟩) "x" "analyzer",
   C3_certify_fail_open.2.2.2 _ [Except.ok []] (1/2) (3/10)
     (fun _ => ⟨"sidecar down", rfl⟩)⟩

/-! ## Helper lemmas: score bounds -/

theorem keywordScan_nonneg (tl : List Char) :
    ∀ l : List (String × ℚ), (∀ kv ∈ l, 0 ≤ kv.2) →
      0 ≤ (keywordScan tl l).1 := by
  intro l
  induction l with
  | nil => intro _; simp [keywordScan]
  | cons kv rest ih =>
    intro h
    have hw : 0 ≤ kv.2 := h kv (List.mem_cons_self _ _)
    have hr := ih fun kv' h' => h kv' (List.mem_cons_of_mem _ h')
    simp only [keywordScan]
    split
    · simpa using add_nonneg hw hr
    · exact hr

theorem keywordWeights_nonneg : ∀ kv ∈ keywordWeights, 0 ≤ kv.2 := by
  intro kv hkv
  simp only [keywordWeights, List.mem_cons, List.not_mem_nil, or_false] at hkv
  rcases hkv with rfl | rfl | rfl | rfl | rfl | rfl | rfl | rfl | rfl | rfl <;>
    norm_num

theorem keywordMatch_bounds (text : String) :
    0 ≤ (keywordMatch text).1 ∧ (keywordMatch text).1 ≤ 1 := by
  constructor
  · exact le_min (keywordScan_nonneg _ _ keywordWeights_nonneg) (by norm_num)
  · exact min_le_right _ _

theorem rsctKeywordScore_bounds (text : String) :
    0 ≤ (rsctKeywordScore text).1 ∧ (rsctKeywordScore text).1 ≤ 1 := by
  constructor
  · exact div_nonneg (Nat.cast_nonneg _) (Nat.cast_nonneg _)
  · rw [rsctKeywordScore, div_le_one (by norm_num [RSCT_CONCEPTS])]
    have hle := List.length_filter_le
      (fun c => containsSub c.data (lowerChars text)) RSCT_CONCEPTS
    exact_mod_cast hle

/-- Counterexample to **C7** as stated: with a whitepaper embedding `[1]` and
a paper embedding `[-1]` (cosine similarity `-1`) and no matched concepts,
`rsct_similarity = -0.7` and `combined_score = -0.42`, both outside `[0,1]`. -/
theorem C7_negative_cosine_escapes_unit_interval :
    (scorePaper (some [1]) (fun _ => some [-1]) "p" "t" "u" 0).rsct_similarity < 0 ∧
    (scorePaper (some [1]) (fun _ => some [-1]) "p" "t" "u" 0).combined_score < 0 := by
  have htu : ("t" ++ " " ++ "u" : String) = "t u" := rfl
  have hf : RSCT_CONCEPTS.filter (fun c => containsSub c.data (lowerChars "t u")) = [] := by
    decide
  have hks : rsctKeywordScore ("t" ++ " " ++ "u") = (0, []) := by
    rw [htu]
    simp only [rsctKeywordScore, hf, List.length_nil]
    norm_num
  have hcos : rsctCosine [-1] [1] = -1 := by
    rw [rsctCosine, if_neg]
    · push_cast [dotQ, sumSq]
      norm_num [Real.sqrt_one]
    · norm_num [sumSq]
  constructor <;>
    simp only [scorePaper, hks, hcos, List.isEmpty_cons, List.isEmpty_nil] <;>
    norm_num

/-- **C7** amended (corrected).  All keyword-derived scores lie in `[0,1]`:
the Matcher's keyword-mode `similarity_score`, and the Scorer's
`keyword_score`.  The Scorer's `rsct_similarity` and `combined_score` lie in
`[0,1]` whenever the embedding contribution does — always in the keyword-only
configuration, and in the embedding configuration whenever the cosine
similarity used is in `[0,1]` (and `topic_similarity ∈ [0,1]`).  An
embedding cosine can be negative, so the bound is conditional there. -/
theorem C7_score_bounds :
    (∀ text, 0 ≤ (keywordMatch text).1 ∧ (keywordMatch text).1 ≤ 1) ∧
    (∀ title abstract, 0 ≤ (matchPaper title abstract).similarity_score ∧
      (matchPaper title abstract).similarity_score ≤ 1) ∧
    (∀ text, 0 ≤ (rsctKeywordScore text).1 ∧ (rsctKeywordScore text).1 ≤ 1) ∧
    (∀ pid title abstract ts, 0 ≤ ts → ts ≤ 1 →
      0 ≤ (scorePaperNoEmbed pid title abstract ts).rsct_similarity ∧
      (scorePaperNoEmbed pid title abstract ts).rsct_similarity ≤ 1 ∧
      0 ≤ (scorePaperNoEmbed pid title abstract ts).combined_score ∧
      (scorePaperNoEmbed pid title abstract ts).combined_score ≤ 1) ∧
    (∀ we ef pid title abstract ts, 0 ≤ ts → ts ≤ 1 →
      (∀ pe, ef (title ++ " " ++ abstract) = some pe → pe.isEmpty = false →
        0 ≤ rsctCosine pe we ∧ rsctCosine pe we ≤ 1) →
      0 ≤ (scorePaper (some we) ef pid title abstract ts).rsct_similarity ∧
      (scorePaper (some we) ef pid title abstract ts).rsct_similarity ≤ 1 ∧
      0 ≤ (scorePaper (some we) ef pid title abstract ts).combined_score ∧
      (scorePaper (some we) ef pid title abstract ts).combined_score ≤ 1) := by
  refine ⟨keywordMatch_bounds, ?_, rsctKeywordScore_bounds, ?_, ?_⟩
  · intro title abstract
    exact keywordMatch_bounds (title ++ "\n" ++ abstract)
  · intro pid title abstract ts h0 h1
    obtain ⟨k0, k1⟩ := rsctKeywordScore_bounds (title ++ " " ++ abstract)
    simp only [scorePaperNoEmbed]
    refine ⟨by linarith, by linarith, by linarith, by linarith⟩
  · intro we ef pid title abstract ts h0 h1 hcos
    obtain ⟨k0, k1⟩ := rsctKeywordScore_bounds (title ++ " " ++ abstract)
    have k0r : (0 : ℝ) ≤ ((rsctKeywordScore (title ++ " " ++ abstract)).1 : ℝ) := by
      exact_mod_cast k0
    have k1r : ((rsctKeywordScore (title ++ " " ++ abstract)).1 : ℝ) ≤ 1 := by
      exact_mod_cast k1
    have t0r : (0 : ℝ) ≤ (ts : ℝ) := by exact_mod_cast h0
    have t1r : (ts : ℝ) ≤ 1 := by exact_mod_cast h1
    have hE : ∀ E : ℝ, 0 ≤ E → E ≤ 1 →
        0 ≤ 0.7 * E + 0.3 * ((rsctKeywordScore (title ++ " " ++ abstract)).1 : ℝ) ∧
        0.7 * E + 0.3 * ((rsctKeywordScore (title ++ " " ++ abstract)).1 : ℝ) ≤ 1 ∧
        0 ≤ 0.6 * (0.7 * E + 0.3 * ((rsctKeywordScore (title ++ " " ++ abstract)).1 : ℝ)) +
          0.4 * (ts : ℝ) ∧
        0.6 * (0.7 * E + 0.3 * ((rsctKeywordScore (title ++ " " ++ abstract)).1 : ℝ)) +
          0.4 * (ts : ℝ) ≤ 1 := by
      intro E he0 he1
      refine ⟨by linarith, by linarith, by linarith, by linarith⟩
    simp only [scorePaper]
    rcases hwe : we.isEmpty with _ | _
    · rcases hef : ef (title ++ " " ++ abstract) with _ | pe
      · exact hE _ k0r k1r
      · rcases hpe : pe.isEmpty with _ | _
        · obtain ⟨c0, c1⟩ := hcos pe hef hpe
          simp only [hpe, Bool.false_eq_true, if_false]
          exact hE _ c0 c1
        · simp only [hpe, reduceIte]
          exact hE _ k0r k1r
    · exact hE _ k0r k1r

/-- Witness for C7 at concrete inputs, discharging each hypothesis: a
topic similarity of `1/2` and embeddings `[1]`, `[1]` (cosine `1`). -/
theorem C7_score_bounds_witness :
    (0 ≤ (scorePaperNoEmbed "p" "solver" "safety" (1/2)).combined_score ∧
      (scorePaperNoEmbed "p" "solver" "safety" (1/2)).combined_score ≤ 1) ∧
    (0 ≤ (scorePaper (some [1]) (fun _ => some [1]) "p" "t" "u" (1/2)).rsct_similarity ∧
      (scorePaper (some [1]) (fun _ => some [1]) "p" "t" "u" (1/2)).rsct_similarity ≤ 1) := by
  have hcos1 : rsctCosine [1] [1] = 1 := by
    rw [rsctCosine, if_neg]
    · push_cast [dotQ, sumSq]
      norm_num [Real.sqrt_one]
    · norm_num [sumSq]
  have h4 := C7_score_bounds.2.2.2.1 "p" "solver" "safety" (1/2)
    (by norm_num) (by norm_num)
  have h5 := C7_score_bounds.2.2.2.2 [1] (fun _ => some [1]) "p" "t" "u" (1/2)
    (by norm_num) (by norm_num)
    (fun pe hpe hne => by
      obtain rfl : pe = [1] := by injection hpe with h; exact h.symm
      rw [hcos1]; norm_num)
  exact ⟨⟨h4.2.2.1, h4.2.2.2⟩, ⟨h5.1, h5.2.1⟩⟩

theorem sample_run_analyzer_blocked :
    runModel (some blockAnalyzerClient) [Except.ok [samplePaper]] (2 / 5) (1 / 8) =
      { papers_fetched := 1, papers_matched := 1, papers_rsct_ranked := 1,
        posts_generated := 0, pdfs_generated := 0,
        certifications := [certExec, certBlock],
        top_papers := [{ title := "beta", topic_score := 0.45,
                         rsct_score := 3 / 16, combined_score := 117 / 400,
                         key_overlaps := ["representation", "solver",
                                          "compatibility"] }],
        errors := ["Analyzer output blocked by certification"] } := by
  have hid : samplePaper.id = "arxiv:2601.00001" := rfl
  have htitle : samplePaper.title = "beta" := rfl
  have habs : samplePaper.abstract = "representation solver compatibility" := rfl
  have hsim : sampleMatch.similarity_score = 0.45 := rfl
  have hrs : sampleScore.rsct_similarity = 3 / 16 := rfl
  have hcs : sampleScore.combined_score = 117 / 400 := rfl
  have hko : sampleScore.key_overlaps =
      ["representation", "solver", "compatibility"] := rfl
  simp only [runModel, sample_fetch, List.isEmpty_cons, Bool.false_eq_true,
    if_false, sample_cert1, List.map_cons, List.map_nil, sample_matchPapers,
    List.zip_cons_cons, List.zip_nil_right, sample_relevant, hid, htitle, habs,
    hsim, sample_rank, sample_cert2, List.filterMap_cons, List.filterMap_nil,
    sample_lookup, Option.map_some, List.length_cons, List.length_nil,
    certExec, certBlock, Bool.not_true, Bool.not_false, sortDescBy,
    insertDescBy, List.take_succ_cons, List.take_nil, hrs, hcs, hko, reduceIte]

/-- Counterexample to **C4** as stated: with a collaborator that allows the
scanner summary but blocks the analyzer summary, the run records
"Analyzer output blocked by certification" — yet the reference-scoring stage
has already executed (`papers_rsct_ranked = 1`, a ranked top paper is
reported): the analyzer gate's verdict is only checked *after* stage 2.5. -/
theorem C4_analyzer_block_after_scoring :
    (runModel (some blockAnalyzerClient) [Except.ok [samplePaper]]
        (2 / 5) (1 / 8)).errors = ["Analyzer output blocked by certification"] ∧
    (runModel (some blockAnalyzerClient) [Except.ok [samplePaper]]
        (2 / 5) (1 / 8)).papers_rsct_ranked = 1 ∧
    (runModel (some blockAnalyzerClient) [Except.ok [samplePaper]]
        (2 / 5) (1 / 8)).top_papers ≠ [] := by
  rw [sample_run_analyzer_blocked]
  exact ⟨rfl, rfl, by simp⟩

/-- **C4** amended (corrected).  A scanner-gate block records an error and
halts before the topic-match stage (nothing is matched, scored or reported).
An analyzer-gate block records an error and halts before the render stage
(no posts are generated) — but it does *not* prevent the reference-scoring
stage, which executes before the analyzer gate's verdict is checked. -/
theorem C4_gate_blocks_halt (swarm : SwarmClient)
    (outcomes : List (Except String (List Paper))) (ms mr : ℚ) :
    (fetchAllSources outcomes ≠ [] →
      (certify swarm (scannerContent (fetchAllSources outcomes)) "scanner").allowed = false →
      (runModel swarm outcomes ms mr).errors =
        ["Scanner output blocked by certification"] ∧
      (runModel swarm outcomes ms mr).papers_matched = 0 ∧
      (runModel swarm outcomes ms mr).papers_rsct_ranked = 0 ∧
      (runModel swarm outcomes ms mr).top_papers = []) ∧
    (fetchAllSources outcomes ≠ [] →
      (certify swarm (scannerContent (fetchAllSources outcomes)) "scanner").allowed = true →
      ((fetchAllSources outcomes).zip
          (matchPapers ((fetchAllSources outcomes).map toPaperDict))).filter
        (fun pm => ms ≤ pm.2.similarity_score) ≠ [] →
      (certify swarm
        (analyzerContent (((fetchAllSources outcomes).zip
            (matchPapers ((fetchAllSources outcomes).map toPaperDict))).filter
          (fun pm => ms ≤ pm.2.similarity_score))) "analyzer").allowed = false →
      (runModel swarm outcomes ms mr).errors =
        ["Analyzer output blocked by certification"] ∧
      (runModel swarm outcomes ms mr).posts_generated = 0 ∧
      (runModel swarm outcomes ms mr).papers_rsct_ranked =
        (rankPapers
          (List.map
            (fun pm =>
              ({ id := pm.1.id, title := pm.1.title, abstract := pm.1.abstract,
                 similarity_score := pm.2.similarity_score } : RsctDict))
            (((fetchAllSources outcomes).zip
                (matchPapers ((fetchAllSources outcomes).map toPaperDict))).filter
              (fun pm => ms ≤ pm.2.similarity_score)))
          mr).length) := by
  have hie : fetchAllSources outcomes ≠ [] →
      (fetchAllSources outcomes).isEmpty = false := by
    intro hne
    cases h : fetchAllSources outcomes with
    | nil => exact absurd h hne
    | cons a l => rfl
  constructor
  · intro hne hblock
    refine ⟨?_, ?_, ?_, ?_⟩ <;>
      simp only [runModel, hie hne, Bool.false_eq_true, if_false, hblock,
        Bool.not_false, if_true]
  · intro hne hallow hrel hblock
    have hier : (((fetchAllSources outcomes).zip
        (matchPapers ((fetchAllSources outcomes).map toPaperDict))).filter
          (fun pm => ms ≤ pm.2.similarity_score)).isEmpty = false := by
      cases h : ((fetchAllSources outcomes).zip
          (matchPapers ((fetchAllSources outcomes).map toPaperDict))).filter
            (fun pm => ms ≤ pm.2.similarity_score) with
      | nil => exact absurd h hrel
      | cons a l => rfl
    refine ⟨?_, ?_, ?_⟩ <;>
      simp only [runModel, hie hne, Bool.false_eq_true, if_false, hallow,
        Bool.not_true, hier, hblock, Bool.not_false, if_true]

/-- Witness for C4 at concrete inputs: a block-everything collaborator halts
at the scanner gate before matching; `blockAnalyzerClient` halts at the
analyzer gate before rendering. -/
theorem C4_gate_blocks_halt_witness :
    ((runModel (some blockAllClient) [Except.ok [samplePaper]]
        (2 / 5) (1 / 8)).errors = ["Scanner output blocked by certification"] ∧
      (runModel (some blockAllClient) [Except.ok [samplePaper]]
        (2 / 5) (1 / 8)).papers_rsct_ranked = 0) ∧
    ((runModel (some blockAnalyzerClient) [Except.ok [samplePaper]]
        (2 / 5) (1 / 8)).errors = ["Analyzer output blocked by certification"] ∧
      (runModel (some blockAnalyzerClient) [Except.ok [samplePaper]]
        (2 / 5) (1 / 8)).posts_generated = 0) := by
  constructor
  · have h := (C4_gate_blocks_halt (some blockAllClient) [Except.ok [samplePaper]]
      (2 / 5) (1 / 8)).1 (by decide) (by decide)
    exact ⟨h.1, h.2.2.1⟩
  · have hrel : (([samplePaper] : List Paper).zip
        (matchPapers ([samplePaper].map toPaperDict))).filter
          (fun pm => (2 / 5 : ℚ) ≤ pm.2.similarity_score) ≠ [] := by
      simp only [List.map_cons, List.map_nil, sample_matchPapers,
        List.zip_cons_cons, List.zip_nil_right, sample_relevant]
      simp
    have h := (C4_gate_blocks_halt (some blockAnalyzerClient)
        [Except.ok [samplePaper]] (2 / 5) (1 / 8)).2 (by decide)
      (by rw [sample_fetch, sample_cert1]; rfl)
      (by rw [sample_fetch]; exact hrel)
      (by
        rw [sample_fetch]
        simp only [List.map_cons, List.map_nil, sample_matchPapers,
          List.zip_cons_cons, List.zip_nil_right, sample_relevant, sample_cert2]
        rfl)
    exact ⟨h.1, h.2.1⟩

end Discovery
